import Mathlib

set_option maxRecDepth 4000

/-!
Verification development for the drive_file_viewer repository.

The Python sources (src/app.py, src/file_type.py, src/file_processor.py) are
shallowly embedded below.  Python strings are Lean `String`s; the helper
functions in the first section reimplement, on `List Char`, the exact Python
string primitives the embedded code uses (`str.split`, `str.lower`, slicing,
`in`, `str.startswith`, `'sep'.join`), so that every definition is structurally
recursive and kernel-reducible.  Machine integers do not occur (Python ints are
unbounded); byte values and code points are modelled as `Nat`.

The summarization model (`summarizer(...)` from the transformers pipeline) is
an external black box; one invocation is modelled by an oracle
`String → ModelResult` whose three outcomes mirror the three cases the code
distinguishes: a non-empty result list, a falsy/empty result, and a raised
exception.  Raised exceptions anywhere are modelled by explicit outcome values,
never by partiality: each embedded function returns exactly what the Python
function returns on the corresponding path.
-/

/-! ## String toolkit (Python string primitives on `List Char`) -/

/-- ASCII lower-casing of one character, as Python `str.lower` acts on ASCII. -/
def lowerChar (c : Char) : Char :=
  if 65 ≤ c.toNat ∧ c.toNat ≤ 90 then Char.ofNat (c.toNat + 32) else c

/-- ASCII upper-casing of one character, as Python `str.upper` acts on ASCII. -/
def upperChar (c : Char) : Char :=
  if 97 ≤ c.toNat ∧ c.toNat ≤ 122 then Char.ofNat (c.toNat - 32) else c

/-- Python `s.lower()` (ASCII range; the repository only lower-cases MIME
types, extensions and file names, which are ASCII). -/
def lowerStr (s : String) : String := ⟨s.data.map lowerChar⟩

/-- Python `s.upper()` (ASCII range). -/
def upperStr (s : String) : String := ⟨s.data.map upperChar⟩

/-- Python slicing `s[:n]` (by code points). -/
def strTake (s : String) (n : Nat) : String := ⟨s.data.take n⟩

/-- Python `sep.join(xs)`. -/
def strJoin (sep : String) : List String → String
  | [] => ""
  | [x] => x
  | x :: y :: xs => x ++ sep ++ strJoin sep (y :: xs)

/-- Python `s.startswith(pat)`. -/
def startsWithStr (s pat : String) : Bool := pat.data.isPrefixOf s.data

/-- Helper for Python `pat in s`: does `p` occur contiguously in the list? -/
def occursInList (p : List Char) : List Char → Bool
  | [] => p.isEmpty
  | c :: t => p.isPrefixOf (c :: t) || occursInList p t

/-- Python substring test `pat in s`. -/
def strContainsSub (s pat : String) : Bool := occursInList pat.data s.data

/-- Helper for Python `s.split(sep)` with a one-character separator:
splits keeping empty pieces, like Python. -/
def splitCharAux (sep : Char) : List Char → List Char → List String
  | [], cur => [⟨cur.reverse⟩]
  | c :: cs, cur =>
    if c = sep then ⟨cur.reverse⟩ :: splitCharAux sep cs []
    else splitCharAux sep cs (c :: cur)

/-- Python `s.split(sep)` for a one-character separator. -/
def splitCharStr (sep : Char) (s : String) : List String := splitCharAux sep s.data []

/-- Whitespace as recognised by Python `str.split()` (ASCII subset, which
covers the whitespace occurring in the repository's decoded texts). -/
def pyWhitespace (c : Char) : Bool :=
  c.toNat = 32 ∨ c.toNat = 9 ∨ c.toNat = 10 ∨ c.toNat = 11 ∨ c.toNat = 12 ∨ c.toNat = 13

/-- Helper for Python `s.split()`: split on whitespace runs, dropping
empty pieces. -/
def splitWsAux : List Char → List Char → List String
  | [], cur => if cur.isEmpty then [] else [⟨cur.reverse⟩]
  | c :: cs, cur =>
    if pyWhitespace c then
      (if cur.isEmpty then splitWsAux cs [] else ⟨cur.reverse⟩ :: splitWsAux cs [])
    else splitWsAux cs (c :: cur)

/-- Python `s.split()` (whitespace split, no empty words). -/
def splitWords (s : String) : List String := splitWsAux s.data []

/-- Index of the last occurrence of `c` in `l` (Python `str.rfind`),
`none` when absent. -/
def lastIdxOf (c : Char) (l : List Char) : Option Nat :=
  match l.reverse.findIdx? (· = c) with
  | some j => some (l.length - 1 - j)
  | none => none

/-! ## src/file_type.py -/

/-- `FileType` enumeration from src/file_type.py. -/
inductive FileType where
  | TEXT
  | PDF
  | SCANNED_DOC
  | PHOTO
  | OTHER
deriving DecidableEq, BEq

/-- `TEXT_EXTS` from src/file_type.py. -/
def TEXT_EXTS : List String := [".txt", ".md", ".csv", ".json", ".xml", ".html", ".htm", ".log"]

/-- `IMAGE_EXTS` from src/file_type.py. -/
def IMAGE_EXTS : List String := [".jpg", ".jpeg", ".png", ".gif", ".tiff", ".bmp"]

/-- The scan-like extension set `{'.jpg', '.jpeg', '.tiff'}` used twice in
`detect_filetype`. -/
def SCAN_EXTS : List String := [".jpg", ".jpeg", ".tiff"]

/-- `pathlib.PurePath.name`: the final path component. -/
def pathName (filename : String) : String :=
  ((splitCharStr '/' filename).filter (fun p => p ≠ "")).getLastD ""

/-- `pathlib.PurePath.suffix`: the extension of the final component,
`name[i:]` for `i = name.rfind('.')` when `0 < i < len(name) - 1`,
else the empty string. -/
def pathSuffix (filename : String) : String :=
  let name := pathName filename
  match lastIdxOf '.' name.data with
  | some i => if 0 < i ∧ i + 1 < name.length then ⟨name.data.drop i⟩ else ""
  | none => ""

/-- The extension-only fallback of `detect_filetype`
(src/file_type.py lines 34-42), on the already lower-cased suffix. -/
def detectByExt (ext : String) : FileType :=
  if ext == ".pdf" then FileType.PDF
  else if TEXT_EXTS.contains ext then FileType.TEXT
  else if IMAGE_EXTS.contains ext then
    (if SCAN_EXTS.contains ext then FileType.SCANNED_DOC else FileType.PHOTO)
  else FileType.OTHER

/-- `detect_filetype(filename, mime_type)` from src/file_type.py
(`ext = Path(filename).suffix.lower()` is written out at each use). -/
def detect_filetype (filename : String) (mime_type : String) : FileType :=
  if mime_type != "" then
    if strContainsSub (lowerStr mime_type) "pdf" then FileType.PDF
    else if strContainsSub (lowerStr mime_type) "text" &&
            TEXT_EXTS.contains (lowerStr (pathSuffix filename)) then FileType.TEXT
    else if strContainsSub (lowerStr mime_type) "image" then
      (if SCAN_EXTS.contains (lowerStr (pathSuffix filename)) then FileType.SCANNED_DOC
       else FileType.PHOTO)
    else detectByExt (lowerStr (pathSuffix filename))
  else detectByExt (lowerStr (pathSuffix filename))

/-- The classification categories as the specification names them. -/
inductive ClaimCat where
  | PDF
  | PlainText
  | Image
  | BinaryUnknown
deriving DecidableEq

/-- Abstraction from the code's `FileType` to the spec's categories
(the spec's Image covers both the scan-like and the photographic route). -/
def toClaimCat : FileType → ClaimCat
  | FileType.TEXT => ClaimCat.PlainText
  | FileType.PDF => ClaimCat.PDF
  | FileType.SCANNED_DOC => ClaimCat.Image
  | FileType.PHOTO => ClaimCat.Image
  | FileType.OTHER => ClaimCat.BinaryUnknown

/-- Modelled from the spec's words (claim C2), extension fallback:
.pdf gives PDF, recognized text extensions give PlainText, recognized
image extensions give Image, anything else gives Binary/Unknown. -/
def classifySpecByExt (ext : String) : ClaimCat :=
  if ext == ".pdf" then ClaimCat.PDF
  else if TEXT_EXTS.contains ext then ClaimCat.PlainText
  else if IMAGE_EXTS.contains ext then ClaimCat.Image
  else ClaimCat.BinaryUnknown

/-- Modelled from the spec's words (claim C2): check MIME first when
non-empty (pdf, then text plus recognized text extension, then image),
otherwise fall back to the extension. -/
def classifySpec (filename : String) (mime_type : String) : ClaimCat :=
  if mime_type != "" then
    if strContainsSub (lowerStr mime_type) "pdf" then ClaimCat.PDF
    else if strContainsSub (lowerStr mime_type) "text" &&
            TEXT_EXTS.contains (lowerStr (pathSuffix filename)) then ClaimCat.PlainText
    else if strContainsSub (lowerStr mime_type) "image" then ClaimCat.Image
    else classifySpecByExt (lowerStr (pathSuffix filename))
  else classifySpecByExt (lowerStr (pathSuffix filename))

/-! ## src/app.py: the recursive summarizer (lines 72-129) -/

/-- Outcome of one model invocation
`summarizer(text, max_length=25, min_length=10, do_sample=False)`:
`ok s` is a non-empty result list whose first element carries
`summary_text` `s`; `empty` is a falsy or empty result; `exn e` is a
raised exception whose message text is `e`. -/
inductive ModelResult where
  | ok (summary_text : String)
  | empty
  | exn (msg : String)
deriving DecidableEq

/-- Base case of `recursive_summarize` (src/app.py lines 78-89): invoke the
model once on the first `max_length` words, mapping its three outcomes to
the returned strings. -/
def summarizeOnce (model : String → ModelResult) (words : List String) (max_length : Nat) : String :=
  match model (strJoin " " (words.take max_length)) with
  | ModelResult.ok s => s
  | ModelResult.empty => "Could not generate summary"
  | ModelResult.exn e => "Could not summarize: " ++ strTake e 50

/-- Helper for the chunk loop `for i in range(0, len(words), 800)`:
`capacity` counts how many more words fit into the open chunk, so chunks
are the consecutive 800-word slices of the word list. -/
def chunkAux (capacity : Nat) (acc : List String) : List String → List (List String)
  | [] => [acc.reverse]
  | w :: ws =>
    match capacity with
    | 0 => acc.reverse :: chunkAux 799 [w] ws
    | c + 1 => chunkAux c (w :: acc) ws

/-- The chunk list `words[i:i+800] for i in range(0, len(words), 800)`
of `recursive_summarize` (src/app.py lines 93-99). -/
def chunkWords : List String → List (List String)
  | [] => []
  | w :: ws => chunkAux 799 [w] ws

/-- The chunk-summaries list of `recursive_summarize` (src/app.py lines
104-117): each chunk is joined with spaces and passed to the model; a
chunk whose call raises, or returns a falsy result, is skipped. -/
def chunkSummaries (model : String → ModelResult) (words : List String) : List String :=
  (chunkWords words).filterMap fun chunk =>
    match model (strJoin " " chunk) with
    | ModelResult.ok s => some s
    | _ => none

/-- Worker for `recursive_summarize`, structurally recursive on
`fuel = max_depth - depth`: `fuel = 0` is exactly `depth >= max_depth`,
and the recursive call at `depth + 1` is the call at `fuel - 1`. -/
def recSummAux (model : String → ModelResult) (max_length : Nat) : Nat → String → String
  | 0, text => summarizeOnce model (splitWords text) max_length
  | fuel + 1, text =>
    if (splitWords text).length ≤ max_length then
      summarizeOnce model (splitWords text) max_length
    else
      match chunkSummaries model (splitWords text) with
      | [] => "Could not generate summary for any chunk"
      | s :: rest => recSummAux model max_length fuel (strJoin " " (s :: rest))

/-- `recursive_summarize(text, file_name, max_length=900, depth=0,
max_depth=3)` from src/app.py lines 72-129.  The `file_name` argument is
used only for logging in the source and is omitted. -/
def recursive_summarize (model : String → ModelResult) (text : String)
    (max_length depth max_depth : Nat) : String :=
  recSummAux model max_length (max_depth - depth) text

/-- Number of model-invocation rounds (recursion levels) that
`recursive_summarize` performs, with the same structure as `recSummAux`. -/
def recRoundsAux (model : String → ModelResult) (max_length : Nat) : Nat → String → Nat
  | 0, _ => 1
  | fuel + 1, text =>
    if (splitWords text).length ≤ max_length then 1
    else
      match chunkSummaries model (splitWords text) with
      | [] => 1
      | s :: rest => 1 + recRoundsAux model max_length fuel (strJoin " " (s :: rest))

/-- Rounds performed by `recursive_summarize text max_length depth max_depth`. -/
def recursive_summarize_rounds (model : String → ModelResult) (text : String)
    (max_length depth max_depth : Nat) : Nat :=
  recRoundsAux model max_length (max_depth - depth) text

/-- The strings `recursive_summarize` can return: a summary the model
produced, or one of its fixed failure diagnostics. -/
def describedResult (model : String → ModelResult) (s : String) : Prop :=
  (∃ input, model input = ModelResult.ok s) ∨
  s = "Could not generate summary" ∨
  s = "Could not generate summary for any chunk" ∨
  ∃ e, s = "Could not summarize: " ++ strTake e 50

/-! ## src/app.py: generate_metadata_summary (lines 131-170) -/

/-- Round `num / den` to the nearest integer, ties to even.  For `den` a
power of two and `num < 2^53` the Python value `num/den` is an exact
binary double, and `.1f` formatting rounds it this way. -/
def roundHalfEven (num den : Nat) : Nat :=
  let q := num / den
  let r := num % den
  if 2 * r < den then q
  else if den < 2 * r then q + 1
  else if q % 2 = 0 then q else q + 1

/-- Python `f"{num/den:.1f}"` for `den` a power of two. -/
def formatFixed1 (num den : Nat) : String :=
  let n := roundHalfEven (num * 10) den
  Nat.repr (n / 10) ++ "." ++ Nat.repr (n % 10)

/-- The `size_info` computation of `generate_metadata_summary`
(src/app.py lines 136-144).  `if file_size:` is falsy for both `None`
and `0`, so both leave `size_info` empty. -/
def sizeInfo : Option Nat → String
  | none => ""
  | some file_size =>
    if file_size = 0 then ""
    else if file_size < 1024 then Nat.repr file_size ++ " bytes"
    else if file_size < 1024 * 1024 then formatFixed1 file_size 1024 ++ " KB"
    else formatFixed1 file_size (1024 * 1024) ++ " MB"

/-- `file_name.split('.')[-1].lower() if '.' in file_name else ''`
(src/app.py lines 133 and 185). -/
def fileExtOf (file_name : String) : String :=
  if file_name.data.contains '.' then lowerStr ((splitCharStr '.' file_name).getLastD "")
  else ""

/-- The sentence template shared by every branch of
`generate_metadata_summary`:
`f"<base>{' (' + size_info + ')' if size_info else ''}."`. -/
def withSize (base : String) (size_info : String) : String :=
  base ++ (if size_info != "" then " (" ++ size_info ++ ")" else "") ++ "."

/-- `generate_metadata_summary(file_name, file_type, file_size=None, ...)`
from src/app.py lines 131-170.  The `created_date`/`modified_date`
parameters are unused in the source and omitted. -/
def generate_metadata_summary (file_name file_type : String) (file_size : Option Nat) : String :=
  if startsWithStr file_type "image/" then withSize "Image file" (sizeInfo file_size)
  else if startsWithStr file_type "video/" then withSize "Video file" (sizeInfo file_size)
  else if startsWithStr file_type "audio/" then withSize "Audio file" (sizeInfo file_size)
  else if file_type == "application/pdf" then withSize "PDF document" (sizeInfo file_size)
  else if file_type == "application/vnd.ms-excel" ||
          file_type == "application/vnd.openxmlformats-officedocument.spreadsheetml.sheet" then
    withSize "Excel spreadsheet" (sizeInfo file_size)
  else if file_type == "application/vnd.ms-powerpoint" ||
          file_type == "application/vnd.openxmlformats-officedocument.presentationml.presentation" then
    withSize "PowerPoint presentation" (sizeInfo file_size)
  else if file_type == "application/zip" || file_type == "application/x-zip-compressed" then
    withSize "ZIP archive" (sizeInfo file_size)
  else
    withSize ((if fileExtOf file_name != "" then upperStr (fileExtOf file_name) else "Unknown")
      ++ " file") (sizeInfo file_size)

/-- Modelled from the spec's words (claim C7): the fixed template sentence
base for each MIME family, else the upper-cased extension or "Unknown". -/
def metadataFamily (file_name file_type : String) : String :=
  if startsWithStr file_type "image/" then "Image file"
  else if startsWithStr file_type "video/" then "Video file"
  else if startsWithStr file_type "audio/" then "Audio file"
  else if file_type == "application/pdf" then "PDF document"
  else if file_type == "application/vnd.ms-excel" ||
          file_type == "application/vnd.openxmlformats-officedocument.spreadsheetml.sheet" then
    "Excel spreadsheet"
  else if file_type == "application/vnd.ms-powerpoint" ||
          file_type == "application/vnd.openxmlformats-officedocument.presentationml.presentation" then
    "PowerPoint presentation"
  else if file_type == "application/zip" || file_type == "application/x-zip-compressed" then
    "ZIP archive"
  else (if fileExtOf file_name != "" then upperStr (fileExtOf file_name) else "Unknown") ++ " file"

/-- Modelled from the spec's words (claim C7), amended at zero: size below
1024 as "N bytes", below 1 MiB as one-decimal KB, else one-decimal MB, in
parentheses after a space; suffix omitted entirely when the size is
unknown or zero. -/
def sizeSuffixSpec : Option Nat → String
  | none => ""
  | some n =>
    if n = 0 then ""
    else if n < 1024 then " (" ++ (Nat.repr n ++ " bytes") ++ ")"
    else if n < 1024 * 1024 then " (" ++ (formatFixed1 n 1024 ++ " KB") ++ ")"
    else " (" ++ (formatFixed1 n (1024 * 1024) ++ " MB") ++ ")"

/-! ## src/app.py: generate_file_summary (lines 172-241) -/

/-- `binary_extensions` from src/app.py lines 188-189. -/
def BINARY_EXTENSIONS : List String :=
  ["jpg", "jpeg", "png", "gif", "bmp", "tiff", "mp4", "avi", "mov",
   "wmv", "mp3", "wav", "ogg", "pdf", "zip", "exe", "dll"]

/-- `ocr_exts` from src/app.py line 191. -/
def OCR_EXTS : List String := ["pdf"]

/-- The metadata-fallback condition of `generate_file_summary`
(src/app.py lines 193-195): binary extension not covered by OCR, or a
truthy `file_type` that is not text/document/sheet-like. -/
def metadataRouted (file_name : String) (file_type : Option String) : Bool :=
  (BINARY_EXTENSIONS.contains (fileExtOf file_name) &&
    !OCR_EXTS.contains (fileExtOf file_name)) ||
  (file_type.getD "" != "" &&
    !startsWithStr (file_type.getD "") "text/" &&
    !strContainsSub (file_type.getD "") "document" &&
    !strContainsSub (file_type.getD "") "sheet")

/-- `generate_file_summary(file_content, file_name, file_type=None,
file_size=None, ...)` from src/app.py lines 172-241.  The module globals
and local state are passed explicitly: `available` is
`SUMMARIZER_AVAILABLE`, `ready` is `summarizer is not None` on entry,
`initOk` is the success of `initialize_summarizer()` when it runs, and
`model` is the summarizer oracle.  The outer try/except turns a raised
direct-call exception into the "Error generating summary" string. -/
def generate_file_summary (file_content : Option String) (file_name : String)
    (file_type : Option String) (file_size : Option Nat)
    (available ready initOk : Bool) (model : String → ModelResult) : String :=
  if (match file_content with | none => 0 | some s => s.length) = 0 then
    "No content to summarize"
  else if metadataRouted file_name file_type then
    generate_metadata_summary file_name
      (if file_type.getD "" != "" then file_type.getD "" else "application/octet-stream")
      file_size
  else if !available then "Summary not available (model not installed)"
  else if !ready && !initOk then "Summary not available (model initialization failed)"
  else
    if 900 < (splitWords (strJoin " " (splitWords (file_content.getD "")))).length then
      recursive_summarize model (strJoin " " (splitWords (file_content.getD ""))) 900 0 3
    else
      match model (strJoin " " (splitWords (file_content.getD ""))) with
      | ModelResult.ok s => s
      | ModelResult.empty => "Could not generate summary for " ++ file_name
      | ModelResult.exn e => "Error generating summary: " ++ strTake e 50

/-! ## src/app.py: list_files_in_folder item processing (lines 408-497) -/

/-- The Drive folder MIME type. -/
def FOLDER_MIME : String := "application/vnd.google-apps.folder"

/-- A raw Drive listing entry, with the defaults of
`item.get('webViewLink', '')` and `item.get('size', '0')` applied. -/
structure RawItem where
  id : String
  name : String
  mimeType : String
  webViewLink : String
  size : String
deriving DecidableEq

/-- Outcome of the per-item summary try-block of `list_files_in_folder`
(src/app.py lines 422-485): the summary string it computed, or the
message of the exception it raised. -/
inductive TryOutcome where
  | ok (summary : String)
  | raised (msg : String)
deriving DecidableEq

/-- The summary field assigned by `list_files_in_folder` to one item
(src/app.py lines 420-491): when requested, not a folder and the model
is available, the try-block result (a raised exception becomes the
"Error generating summary" string); else the disabled sentinel for
non-folders; folders get no summary key. -/
def summarize_item (generate_summaries available : Bool) (item : RawItem)
    (outcome : TryOutcome) : Option String :=
  if generate_summaries && !(item.mimeType == FOLDER_MIME) && available then
    some (match outcome with
      | TryOutcome.ok s => s
      | TryOutcome.raised e => "Error generating summary: " ++ strTake e 50)
  else if !(item.mimeType == FOLDER_MIME) then some "Summary generation disabled"
  else none

/-- A processed listing entry (`file_item` of src/app.py lines 411-418). -/
structure ListedItem where
  id : String
  name : String
  type : String
  mimeType : String
  webViewLink : String
  size : String
  summary : Option String
deriving DecidableEq

/-- One iteration of the item loop of `list_files_in_folder`. -/
def processItem (generate_summaries available : Bool) (outcome : TryOutcome)
    (item : RawItem) : ListedItem :=
  { id := item.id
    name := item.name
    type := if item.mimeType == FOLDER_MIME then "folder" else "file"
    mimeType := item.mimeType
    webViewLink := item.webViewLink
    size := item.size
    summary := summarize_item generate_summaries available item outcome }

/-- Python string comparison (lexicographic on code points). -/
def charListLe : List Char → List Char → Bool
  | [], _ => true
  | _ :: _, [] => false
  | a :: as, b :: bs =>
    if a.toNat < b.toNat then true
    else if b.toNat < a.toNat then false
    else charListLe as bs

/-- The sort key `(x['type'] != 'folder', x['name'].lower())` of
src/app.py line 497, as a total order on processed items. -/
def itemSortLe (a b : ListedItem) : Bool :=
  if (a.type != "folder") == (b.type != "folder") then
    charListLe (lowerStr a.name).data (lowerStr b.name).data
  else (a.type != "folder") == false

/-- The `processed_items` list of `list_files_in_folder`
(src/app.py lines 408-497): per-item processing, then the
folders-first-by-name sort. -/
def list_files_in_folder_items (generate_summaries available : Bool)
    (outcome : RawItem → TryOutcome) (raw : List RawItem) : List ListedItem :=
  (raw.map fun it => processItem generate_summaries available (outcome it) it).mergeSort
    itemSortLe

/-! ## src/app.py: the result cache (lines 610-624 and 853-915) -/

/-- One cached listing item as stored in the pickle file (only the fields
the cache-reuse logic reads). -/
structure CachedItem where
  type : String
  name : String
  webViewLink : String
  summary : Option String
deriving DecidableEq

/-- A cached `FolderListingResult` (the fields the export path reads). -/
structure FolderResult where
  folderName : String
  items : List CachedItem
deriving DecidableEq

/-- Session plus temp-dir state of the cache: the pickle blobs under
`TEMP_DIR` keyed by result id, and the session's most-recent pointer
(`last_folder_result_id`, `last_folder_id`). -/
structure SessionCache where
  blobs : List (String × FolderResult)
  last_folder_result_id : Option String
  last_folder_id : Option String
deriving DecidableEq

/-- The store step of `list_files` (src/app.py lines 610-621): write the
pickle under a fresh id and set the most-recent pointer. -/
def store_listing_result (st : SessionCache) (folder_id result_id : String)
    (result : FolderResult) : SessionCache :=
  { blobs := (result_id, result) :: st.blobs
    last_folder_result_id := some result_id
    last_folder_id := some folder_id }

/-- One conjunct of the `has_summaries` check of `export_csv`
(src/app.py lines 869-874): a file item whose summary is truthy, not the
disabled sentinel, and not error-prefixed. -/
def usable_summary (it : CachedItem) : Bool :=
  it.type == "file" &&
  (match it.summary with
   | some s =>
     s != "" && s != "Summary generation disabled" &&
     !startsWithStr s "Error generating summary"
   | none => false)

/-- The cache fetch of `export_csv` (src/app.py lines 853-876): valid only
when the session pointer exists, the pointed folder id equals the
requested one, the blob is readable, and
`has_summaries = not include_summaries or any(usable)` holds; any other
path is a miss. -/
def fetch_cached_result (st : SessionCache) (folder_id : String)
    (include_summaries : Bool) : Option FolderResult :=
  match st.last_folder_result_id, st.last_folder_id with
  | some result_id, some last_fid =>
    if last_fid == folder_id then
      match st.blobs.lookup result_id with
      | some res =>
        if !include_summaries || res.items.any usable_summary then some res else none
      | none => none
    else none
  | _, _ => none

/-! ## src/app.py: CSV export (lines 630-830 and 930-946) -/

/-- One entry of the `items` list consumed by the CSV writer (the dict
built by `get_all_files_recursive`); folder entries carry only
`folder_path`, `name`, `is_folder`, modelled with empty remaining fields. -/
structure CsvItem where
  folder_path : String
  name : String
  is_folder : Bool
  webViewLink : String
  summary : String
  notes : String
deriving DecidableEq

/-- A pure Drive folder tree, children in listing order. -/
inductive DriveNode where
  | file (name webViewLink : String)
  | folder (name : String) (children : List DriveNode)

mutual
/-- `get_all_files_recursive(service, folder_id, folder_path, include_summaries)`
(src/app.py lines 630-830) on a pure folder tree: the cache-miss path with
`include_summaries=False`, where every file gets the summary
"Summary generation disabled" and empty notes, a folder contributes its
own row and then its recursively collected contents, in listing order. -/
def get_all_files_recursive (folder_path : String) : List DriveNode → List CsvItem
  | [] => []
  | n :: ns => driveNodeItems folder_path n ++ get_all_files_recursive folder_path ns

/-- Rows contributed by a single Drive node. -/
def driveNodeItems (folder_path : String) : DriveNode → List CsvItem
  | DriveNode.file name link =>
    [{ folder_path := folder_path, name := name, is_folder := false,
       webViewLink := link, summary := "Summary generation disabled", notes := "" }]
  | DriveNode.folder name children =>
    { folder_path := folder_path, name := name, is_folder := true,
      webViewLink := "", summary := "", notes := "" } ::
      get_all_files_recursive (folder_path ++ "/" ++ name) children
end

/-- The CSV header row written by `export_csv` (src/app.py line 934). -/
def csvHeader : List String := ["Number", "Folder Name", "File Name", "File URL", "Summary", "Notes"]

/-- The data rows written by `export_csv` (src/app.py lines 937-946):
`for i, item in enumerate(items, 1): if not item['is_folder']:
writer.writerow([i, ...])`. -/
def export_csv_rows (items : List CsvItem) : List (List String) :=
  (items.enumFrom 1).filterMap fun p =>
    if p.2.is_folder then none
    else some [Nat.repr p.1, p.2.folder_path, p.2.name, p.2.webViewLink, p.2.summary, p.2.notes]

/-- The claim C6 scenario, in the listing order the repository's own test
mock uses: the subfolder entry precedes the root file. -/
def c6FailingInput : List DriveNode :=
  [DriveNode.folder "Subfolder" [DriveNode.file "File 2" "https://drive.google.com/file2"],
   DriveNode.file "File 1" "https://drive.google.com/file1"]

/-! ## src/file_processor.py and the UTF-8 decoders -/

/-- Is `b` a UTF-8 continuation byte (0x80-0xBF)? -/
def isCont (b : Nat) : Bool := 128 ≤ b && b ≤ 191

/-- Constraint on the first continuation byte of a three-byte sequence
(excluding overlong forms and surrogates, as Python's codec does). -/
def cont3Ok (lead c1 : Nat) : Bool :=
  if lead = 224 then 160 ≤ c1 && c1 ≤ 191
  else if lead = 237 then 128 ≤ c1 && c1 ≤ 159
  else isCont c1

/-- Constraint on the first continuation byte of a four-byte sequence
(excluding overlong forms and values above U+10FFFF). -/
def cont4Ok (lead c1 : Nat) : Bool :=
  if lead = 240 then 144 ≤ c1 && c1 ≤ 191
  else if lead = 244 then 128 ≤ c1 && c1 ≤ 143
  else isCont c1

/-- One UTF-8 sequence starting at lead byte `b` with following bytes
`rest`: the decoded code point and the remaining bytes, or `none` when no
valid sequence starts here (invalid lead, bad continuation, overlong
form, surrogate, value above U+10FFFF, or truncated input). -/
def utf8ParseOne (b : Nat) (rest : List Nat) : Option (Nat × List Nat) :=
  if b < 128 then some (b, rest)
  else if 194 ≤ b && b ≤ 223 then
    match rest with
    | c1 :: r => if isCont c1 then some ((b - 192) * 64 + (c1 - 128), r) else none
    | [] => none
  else if 224 ≤ b && b ≤ 239 then
    match rest with
    | c1 :: c2 :: r =>
      if cont3Ok b c1 && isCont c2 then
        some ((b - 224) * 4096 + (c1 - 128) * 64 + (c2 - 128), r)
      else none
    | _ => none
  else if 240 ≤ b && b ≤ 244 then
    match rest with
    | c1 :: c2 :: c3 :: r =>
      if cont4Ok b c1 && isCont c2 && isCont c3 then
        some ((b - 240) * 262144 + (c1 - 128) * 4096 + (c2 - 128) * 64 + (c3 - 128), r)
      else none
    | _ => none
  else none

/-- The bytes remaining after the maximal invalid subpart starting at
lead byte `b` (the W3C rule Python's replace handler follows): a valid
lead plus its valid continuation bytes are consumed together, an invalid
lead is consumed alone. -/
def utf8InvalidSkip (b : Nat) (rest : List Nat) : List Nat :=
  if 224 ≤ b && b ≤ 239 then
    match rest with
    | c1 :: rest1 => if cont3Ok b c1 then rest1 else rest
    | [] => rest
  else if 240 ≤ b && b ≤ 244 then
    match rest with
    | c1 :: rest1 =>
      if cont4Ok b c1 then
        match rest1 with
        | c2 :: rest2 => if isCont c2 then rest2 else rest1
        | [] => rest1
      else rest
    | [] => rest
  else rest

/-- Strict UTF-8 decoding with a fuel bound (one unit per lead byte;
each step consumes at least one byte, so fuel equal to the byte count
always suffices). -/
def utf8DecodeStrictAux : Nat → List Nat → Option (List Nat)
  | _, [] => some []
  | 0, _ :: _ => none
  | fuel + 1, b :: rest =>
    match utf8ParseOne b rest with
    | some (cp, r) => (utf8DecodeStrictAux fuel r).map (fun cs => cp :: cs)
    | none => none

/-- Python `bytes.decode('utf-8')` (strict): the code-point list, or
`none` when a `UnicodeDecodeError` is raised. -/
def utf8DecodeStrict (bs : List Nat) : Option (List Nat) := utf8DecodeStrictAux bs.length bs

/-- Replacing UTF-8 decoding with a fuel bound, as `utf8DecodeStrictAux`. -/
def utf8DecodeReplaceAux : Nat → List Nat → List Nat
  | _, [] => []
  | 0, _ :: _ => []
  | fuel + 1, b :: rest =>
    match utf8ParseOne b rest with
    | some (cp, r) => cp :: utf8DecodeReplaceAux fuel r
    | none => 65533 :: utf8DecodeReplaceAux fuel (utf8InvalidSkip b rest)

/-- Python `bytes.decode('utf-8', errors='replace')`: total, replacing
each maximal invalid subpart with U+FFFD (65533). -/
def utf8DecodeReplace (bs : List Nat) : List Nat := utf8DecodeReplaceAux bs.length bs

/-- `FileProcessor._process_text` (src/file_processor.py lines 38-39):
`file_bytes.decode('utf-8')[:5000]`, strict decoding then truncation;
`none` is the `UnicodeDecodeError` that `FileProcessor.process` catches,
returning `None`. -/
def fileProcessor_process_text (file_bytes : List Nat) : Option (List Nat) :=
  (utf8DecodeStrict file_bytes).map (fun cs => cs.take 5000)

/-- The decode step of `download_file_content` (src/app.py line 341):
`file_content.getvalue().decode('utf-8', errors='replace')`; total, no
truncation. -/
def download_decode (file_bytes : List Nat) : List Nat := utf8DecodeReplace file_bytes

/-- Concrete data for the C4 theorems: a result whose only file item
carries the disabled-sentinel summary. -/
def c4Result : FolderResult :=
  { folderName := "Test Folder"
    items := [{ type := "file", name := "test.txt",
                webViewLink := "https://example.com",
                summary := some "Summary generation disabled" }] }

/-- Concrete data for the C5 theorems: a plain text file item. -/
def c5RawItem : RawItem :=
  { id := "file1", name := "test.txt", mimeType := "text/plain",
    webViewLink := "https://drive.google.com/file/d/file1/view", size := "0" }

/-! # Theorems -/

/-! ## C2 -/

theorem toClaimCat_detectByExt (ext : String) :
    toClaimCat (detectByExt ext) = classifySpecByExt ext := by
  unfold detectByExt classifySpecByExt
  split_ifs <;> rfl

/-- C2: classify is a total function implementing the spec's policy: MIME
checked first when non-empty (pdf, then text plus recognized extension,
then image with the scan-like split on jpg/jpeg/tiff), else the
extension fallback (.pdf, text extensions, image extensions, else
Binary/Unknown). -/
theorem detect_filetype_c2 (filename mime_type : String) :
    toClaimCat (detect_filetype filename mime_type) = classifySpec filename mime_type ∧
    (mime_type ≠ "" →
      strContainsSub (lowerStr mime_type) "pdf" = false →
      ¬(strContainsSub (lowerStr mime_type) "text" = true ∧
        TEXT_EXTS.contains (lowerStr (pathSuffix filename)) = true) →
      strContainsSub (lowerStr mime_type) "image" = true →
      detect_filetype filename mime_type =
        (if SCAN_EXTS.contains (lowerStr (pathSuffix filename)) then FileType.SCANNED_DOC
         else FileType.PHOTO)) := by
  constructor
  · unfold detect_filetype classifySpec
    split_ifs <;> first
      | rfl
      | exact toClaimCat_detectByExt (lowerStr (pathSuffix filename))
  · intro hne hpdf htext himg
    have hne2 : (mime_type != "") = true := by simpa using hne
    unfold detect_filetype
    rw [if_pos hne2, if_neg (by simp [hpdf]),
      if_neg (fun h => htext (by simpa using h)), if_pos himg]

theorem detect_filetype_c2_witness :
    toClaimCat (detect_filetype "scan.jpg" "image/jpeg") = classifySpec "scan.jpg" "image/jpeg" ∧
    detect_filetype "scan.jpg" "image/jpeg" = FileType.SCANNED_DOC :=
  ⟨(detect_filetype_c2 "scan.jpg" "image/jpeg").1, by
    rw [(detect_filetype_c2 "scan.jpg" "image/jpeg").2 (by decide) (by decide)
      (by decide) (by decide)]
    decide⟩

/-! ## C1 -/

theorem recSummAux_succ (model : String → ModelResult) (max_length fuel : Nat) (text : String) :
    recSummAux model max_length (fuel + 1) text =
      if (splitWords text).length ≤ max_length then
        summarizeOnce model (splitWords text) max_length
      else
        match chunkSummaries model (splitWords text) with
        | [] => "Could not generate summary for any chunk"
        | s :: rest => recSummAux model max_length fuel (strJoin " " (s :: rest)) := rfl

theorem recRoundsAux_succ (model : String → ModelResult) (max_length fuel : Nat) (text : String) :
    recRoundsAux model max_length (fuel + 1) text =
      if (splitWords text).length ≤ max_length then 1
      else
        match chunkSummaries model (splitWords text) with
        | [] => 1
        | s :: rest => 1 + recRoundsAux model max_length fuel (strJoin " " (s :: rest)) := rfl

theorem recRoundsAux_le (model : String → ModelResult) (max_length : Nat) :
    ∀ fuel text, recRoundsAux model max_length fuel text ≤ fuel + 1 := by
  intro fuel
  induction fuel with
  | zero => intro text; simp [recRoundsAux]
  | succ n ih =>
    intro text
    rw [recRoundsAux_succ]
    split
    · omega
    · cases h : chunkSummaries model (splitWords text) with
      | nil => show (1 : Nat) ≤ n + 1 + 1; omega
      | cons s rest =>
        show 1 + recRoundsAux model max_length n (strJoin " " (s :: rest)) ≤ n + 1 + 1
        have := ih (strJoin " " (s :: rest))
        omega

theorem summarizeOnce_described (model : String → ModelResult) (words : List String)
    (max_length : Nat) : describedResult model (summarizeOnce model words max_length) := by
  unfold summarizeOnce describedResult
  cases h : model (strJoin " " (words.take max_length)) with
  | ok s => exact Or.inl ⟨_, h⟩
  | empty => exact Or.inr (Or.inl rfl)
  | exn e => exact Or.inr (Or.inr (Or.inr ⟨e, rfl⟩))

theorem recSummAux_described (model : String → ModelResult) (max_length : Nat) :
    ∀ fuel text, describedResult model (recSummAux model max_length fuel text) := by
  intro fuel
  induction fuel with
  | zero => intro text; exact summarizeOnce_described model _ _
  | succ n ih =>
    intro text
    rw [recSummAux_succ]
    split
    · exact summarizeOnce_described model _ _
    · cases h : chunkSummaries model (splitWords text) with
      | nil => exact Or.inr (Or.inr (Or.inl rfl))
      | cons s rest => exact ih (strJoin " " (s :: rest))

theorem recSummAux_short (model : String → ModelResult) (max_length fuel : Nat) (text : String)
    (h : (splitWords text).length ≤ max_length) :
    recSummAux model max_length fuel text = summarizeOnce model (splitWords text) max_length ∧
    recRoundsAux model max_length fuel text = 1 := by
  cases fuel <;> simp [recSummAux, recRoundsAux, h]

/-- C1: `recursive_summarize` with the default arguments performs at most
`max_depth + 1 = 4` model-invocation rounds, never raises (every outcome
is a model summary or a fixed diagnostic string), and on input of at most
900 words takes the base case immediately (exactly one round, at depth 0). -/
theorem recursive_summarize_c1 (model : String → ModelResult) (text : String) :
    recursive_summarize_rounds model text 900 0 3 ≤ 4 ∧
    describedResult model (recursive_summarize model text 900 0 3) ∧
    ((splitWords text).length ≤ 900 →
      recursive_summarize model text 900 0 3 = summarizeOnce model (splitWords text) 900 ∧
      recursive_summarize_rounds model text 900 0 3 = 1) := by
  refine ⟨?_, ?_, ?_⟩
  · exact recRoundsAux_le model 900 3 text
  · exact recSummAux_described model 900 3 text
  · intro h
    exact recSummAux_short model 900 3 text h

theorem recursive_summarize_c1_witness :
    (splitWords "alpha beta").length ≤ 900 ∧
    (recursive_summarize (fun _ => ModelResult.ok "short summary") "alpha beta" 900 0 3 =
      summarizeOnce (fun _ => ModelResult.ok "short summary") (splitWords "alpha beta") 900 ∧
    recursive_summarize_rounds (fun _ => ModelResult.ok "short summary") "alpha beta" 900 0 3 = 1) :=
  ⟨by decide, (recursive_summarize_c1 (fun _ => ModelResult.ok "short summary") "alpha beta").2.2
    (by decide)⟩

/-! ## C3 -/

/-- C3: in the recursive case, when every chunk-summarization call fails
(no chunk yields a summary), `recursive_summarize` returns the fixed
"Could not generate summary for any chunk" diagnostic without recursing
further; and when some chunks survive, the recursion proceeds on the
space-join of exactly the surviving chunk summaries — a failed chunk
contributes nothing. -/
theorem recursive_summarize_c3 (model : String → ModelResult) (text : String)
    (max_length depth max_depth : Nat)
    (hlong : max_length < (splitWords text).length)
    (hdepth : depth < max_depth) :
    ((∀ chunk ∈ chunkWords (splitWords text), ∀ s, model (strJoin " " chunk) ≠ ModelResult.ok s) →
      recursive_summarize model text max_length depth max_depth =
        "Could not generate summary for any chunk") ∧
    (∀ s rest, chunkSummaries model (splitWords text) = s :: rest →
      recursive_summarize model text max_length depth max_depth =
        recursive_summarize model (strJoin " " (s :: rest)) max_length (depth + 1) max_depth) := by
  obtain ⟨k, hk⟩ : ∃ k, max_depth - depth = k + 1 := ⟨max_depth - depth - 1, by omega⟩
  constructor
  · intro hfail
    have hnil : chunkSummaries model (splitWords text) = [] := by
      unfold chunkSummaries
      rw [List.filterMap_eq_nil_iff]
      intro chunk hc
      cases h : model (strJoin " " chunk) with
      | ok s => exact absurd h (hfail chunk hc s)
      | empty => rfl
      | exn e => rfl
    unfold recursive_summarize
    rw [hk, recSummAux_succ, if_neg (by omega), hnil]
  · intro s rest hcs
    unfold recursive_summarize
    rw [hk, show max_depth - (depth + 1) = k from by omega, recSummAux_succ,
      if_neg (by omega), hcs]

theorem recursive_summarize_c3_witness :
    recursive_summarize (fun _ => ModelResult.exn "boom") "a b c" 2 0 3 =
      "Could not generate summary for any chunk" :=
  (recursive_summarize_c3 (fun _ => ModelResult.exn "boom") "a b c" 2 0 3
    (by decide) (by decide)).1 (fun chunk hc s hv => by simp at hv)

/-! ## C4 -/

/-- C4 counterexample: a stored result whose only file summary is the
disabled sentinel is not returned by a same-folder fetch that requests
summaries (the claim's unqualified round trip fails there), although a
fetch without summaries does return it. -/
theorem fetch_cached_result_c4_counterexample :
    fetch_cached_result (store_listing_result ⟨[], none, none⟩ "folderA" "rid1" c4Result)
      "folderA" true = none ∧
    fetch_cached_result (store_listing_result ⟨[], none, none⟩ "folderA" "rid1" c4Result)
      "folderA" false = some c4Result := by
  decide

/-- C4 amended: after storing, a same-folder fetch returns the stored
result whenever it does not request summaries or some cached file item
has a usable summary; a fetch naming any other folder id is always a
miss. -/
theorem fetch_cached_result_c4_amended (st : SessionCache) (folder_id result_id : String)
    (res : FolderResult) (include_summaries : Bool) (other_id : String) :
    ((include_summaries = false ∨ res.items.any usable_summary = true) →
      fetch_cached_result (store_listing_result st folder_id result_id res)
        folder_id include_summaries = some res) ∧
    (other_id ≠ folder_id →
      fetch_cached_result (store_listing_result st folder_id result_id res)
        other_id include_summaries = none) := by
  constructor
  · intro h
    unfold fetch_cached_result store_listing_result
    simp only [beq_self_eq_true, if_true, List.lookup]
    rcases h with h | h
    · subst h; simp
    · simp [h]
  · intro h
    unfold fetch_cached_result store_listing_result
    simp only
    rw [if_neg (by simpa using (Ne.symm h))]

theorem fetch_cached_result_c4_amended_witness :
    fetch_cached_result (store_listing_result ⟨[], none, none⟩ "fid" "rid" c4Result)
      "fid" false = some c4Result ∧
    fetch_cached_result (store_listing_result ⟨[], none, none⟩ "fid" "rid" c4Result)
      "other" false = none :=
  ⟨(fetch_cached_result_c4_amended ⟨[], none, none⟩ "fid" "rid" c4Result false "other").1
      (Or.inl rfl),
   (fetch_cached_result_c4_amended ⟨[], none, none⟩ "fid" "rid" c4Result false "other").2
      (by decide)⟩

/-! ## C5 -/

/-- C5 counterexample: in the listing pipeline, with the model unavailable
and summaries requested, a plain text file (not metadata-routed) gets the
summary "Summary generation disabled", not the claimed
"Summary not available (model not installed)". -/
theorem summarize_item_c5_counterexample :
    metadataRouted "test.txt" (some "text/plain") = false ∧
    summarize_item true false c5RawItem (TryOutcome.ok "ignored") =
      some "Summary generation disabled" ∧
    "Summary generation disabled" ≠ "Summary not available (model not installed)" := by
  decide

/-- C5 amended: inside `generate_file_summary`, a file with non-empty
content that is not metadata-routed yields the fixed
"Summary not available (model not installed)" text when the model backend
is unavailable, and a metadata-routed (binary/media) file short-circuits
to `generate_metadata_summary` before that check, whatever the
availability; but the listing pipeline guards its calls on availability,
so with the model unavailable every listed file's summary is
"Summary generation disabled" regardless of the generate-summaries flag. -/
theorem generate_file_summary_c5_amended (content file_name : String)
    (file_type : Option String) (file_size : Option Nat)
    (available ready initOk : Bool) (model : String → ModelResult) :
    (content ≠ "" → metadataRouted file_name file_type = false →
      generate_file_summary (some content) file_name file_type file_size false ready initOk
        model = "Summary not available (model not installed)") ∧
    (content ≠ "" → metadataRouted file_name file_type = true →
      generate_file_summary (some content) file_name file_type file_size available ready initOk
        model = generate_metadata_summary file_name
          (if file_type.getD "" != "" then file_type.getD "" else "application/octet-stream")
          file_size) ∧
    (∀ (generate_summaries : Bool) (item : RawItem) (outcome : TryOutcome),
      (item.mimeType == FOLDER_MIME) = false →
      summarize_item generate_summaries false item outcome =
        some "Summary generation disabled") := by
  refine ⟨?_, ?_, ?_⟩
  · intro hc hroute
    have hlen : content.length ≠ 0 := fun h0 =>
      hc (String.ext (List.length_eq_zero.mp h0))
    unfold generate_file_summary
    rw [if_neg (by simpa using hlen), if_neg (by simp [hroute])]
    simp
  · intro hc hroute
    have hlen : content.length ≠ 0 := fun h0 =>
      hc (String.ext (List.length_eq_zero.mp h0))
    unfold generate_file_summary
    rw [if_neg (by simpa using hlen), if_pos (by simp [hroute])]
  · intro gs item outcome hfile
    unfold summarize_item
    rw [if_neg (by simp [hfile]), if_pos (by simp [hfile])]

theorem generate_file_summary_c5_amended_witness :
    generate_file_summary (some "Some content") "test.txt" none none false true true
      (fun _ => ModelResult.empty) = "Summary not available (model not installed)" :=
  (generate_file_summary_c5_amended "Some content" "test.txt" none none false true true
    (fun _ => ModelResult.empty)).1 (by decide) (by decide)

/-! ## C6 -/

/-- C6: the export writes the claimed header, and on the claim's own
scenario — "File 1" at the root and "File 2" inside a subfolder listed
first — it produces exactly 2 data rows with folder paths preserved
verbatim, but numbered 2 and 3 instead of the claimed 1 and 2: the
`enumerate` runs over folder entries whose rows are skipped, so the
Number column skips values. -/
theorem export_csv_rows_c6_numbering :
    csvHeader = ["Number", "Folder Name", "File Name", "File URL", "Summary", "Notes"] ∧
    export_csv_rows (get_all_files_recursive "Root" c6FailingInput) =
      [["2", "Root/Subfolder", "File 2", "https://drive.google.com/file2",
        "Summary generation disabled", ""],
       ["3", "Root", "File 1", "https://drive.google.com/file1",
        "Summary generation disabled", ""]] ∧
    (export_csv_rows (get_all_files_recursive "Root" c6FailingInput)).length = 2 := by
  decide

/-! ## C7 -/

theorem append_bne_empty (x t : String) (h : t.data ≠ []) : ((x ++ t) != "") = true := by
  simp only [bne_iff_ne, ne_eq, String.ext_iff]
  simpa using fun _ => h

theorem sizeInfo_some (n : Nat) :
    sizeInfo (some n) =
      (if n = 0 then ""
       else if n < 1024 then Nat.repr n ++ " bytes"
       else if n < 1024 * 1024 then formatFixed1 n 1024 ++ " KB"
       else formatFixed1 n (1024 * 1024) ++ " MB") := rfl

theorem sizeSuffixSpec_some (n : Nat) :
    sizeSuffixSpec (some n) =
      (if n = 0 then ""
       else if n < 1024 then " (" ++ (Nat.repr n ++ " bytes") ++ ")"
       else if n < 1024 * 1024 then " (" ++ (formatFixed1 n 1024 ++ " KB") ++ ")"
       else " (" ++ (formatFixed1 n (1024 * 1024) ++ " MB") ++ ")") := rfl

theorem withSize_sizeInfo (base : String) (file_size : Option Nat) :
    withSize base (sizeInfo file_size) = base ++ sizeSuffixSpec file_size ++ "." := by
  cases file_size with
  | none => rfl
  | some n =>
    by_cases h0 : n = 0
    · subst h0; rfl
    · by_cases h1 : n < 1024
      · unfold withSize
        rw [sizeInfo_some, sizeSuffixSpec_some, if_neg h0, if_pos h1, if_neg h0, if_pos h1,
          if_pos (append_bne_empty _ " bytes" (by decide))]
      · by_cases h2 : n < 1024 * 1024
        · unfold withSize
          rw [sizeInfo_some, sizeSuffixSpec_some, if_neg h0, if_neg h1, if_pos h2,
            if_neg h0, if_neg h1, if_pos h2,
            if_pos (append_bne_empty _ " KB" (by decide))]
        · unfold withSize
          rw [sizeInfo_some, sizeSuffixSpec_some, if_neg h0, if_neg h1, if_neg h2,
            if_neg h0, if_neg h1, if_neg h2,
            if_pos (append_bne_empty _ " MB" (by decide))]

/-- C7 amended: the metadata summary is always the family template plus a
size suffix, where the suffix is "N bytes" below 1024, one-decimal KB
below 1 MiB, one-decimal MB above, and is omitted when the size is
unknown or zero (the claim omitted the zero case); including the spec's
two concrete examples. -/
theorem generate_metadata_summary_c7_amended (file_name file_type : String)
    (file_size : Option Nat) :
    generate_metadata_summary file_name file_type file_size =
      metadataFamily file_name file_type ++ sizeSuffixSpec file_size ++ "." ∧
    generate_metadata_summary "photo.jpg" "image/jpeg" (some 1048576) = "Image file (1.0 MB)." ∧
    generate_metadata_summary "nosize.txt" "text/plain" none = "TXT file." := by
  refine ⟨?_, by decide, by decide⟩
  unfold generate_metadata_summary metadataFamily
  split_ifs <;> rw [withSize_sizeInfo]

/-- C7 counterexample: at size zero the code omits the size suffix (the
Python truthiness check treats 0 like None), while the claim's rules
demand "(0 bytes)". -/
theorem generate_metadata_summary_c7_counterexample :
    generate_metadata_summary "photo.jpg" "image/jpeg" (some 0) = "Image file." ∧
    "Image file." ≠ "Image file (0 bytes)." := by
  decide

theorem generate_metadata_summary_c7_amended_witness :
    generate_metadata_summary "video.mp4" "video/mp4" (some 512) =
      metadataFamily "video.mp4" "video/mp4" ++ sizeSuffixSpec (some 512) ++ "." :=
  (generate_metadata_summary_c7_amended "video.mp4" "video/mp4" (some 512)).1

/-! ## C8 -/

theorem utf8ParseOne_suffix (b : Nat) (rest : List Nat) (cp : Nat) (r : List Nat)
    (h : utf8ParseOne b rest = some (cp, r)) : r.length ≤ rest.length := by
  unfold utf8ParseOne at h
  split_ifs at h with h1 h2 h3 h4
  · cases h; exact le_rfl
  · split at h
    · split_ifs at h
      cases h
      simp only [List.length_cons]
      omega
    · cases h
  · split at h
    · split_ifs at h
      cases h
      simp only [List.length_cons]
      omega
    · cases h
  · split at h
    · split_ifs at h
      cases h
      simp only [List.length_cons]
      omega
    · cases h

theorem utf8DecodeStrictAux_cons (fuel b : Nat) (rest : List Nat) :
    utf8DecodeStrictAux (fuel + 1) (b :: rest) =
      match utf8ParseOne b rest with
      | some (cp, r) => (utf8DecodeStrictAux fuel r).map (fun cs => cp :: cs)
      | none => none := rfl

theorem utf8DecodeReplaceAux_cons (fuel b : Nat) (rest : List Nat) :
    utf8DecodeReplaceAux (fuel + 1) (b :: rest) =
      match utf8ParseOne b rest with
      | some (cp, r) => cp :: utf8DecodeReplaceAux fuel r
      | none => 65533 :: utf8DecodeReplaceAux fuel (utf8InvalidSkip b rest) := rfl

theorem utf8AuxAgree : ∀ (fuel : Nat) (bs : List Nat), bs.length ≤ fuel →
    ∀ cs, utf8DecodeStrictAux fuel bs = some cs → utf8DecodeReplaceAux fuel bs = cs := by
  intro fuel
  induction fuel with
  | zero =>
    intro bs hlen cs h
    match bs, hlen with
    | [], _ =>
      simp only [utf8DecodeStrictAux, Option.some.injEq] at h
      subst h
      rfl
  | succ n ih =>
    intro bs hlen cs h
    match bs with
    | [] =>
      simp only [utf8DecodeStrictAux, Option.some.injEq] at h
      subst h
      rfl
    | b :: rest =>
      rw [utf8DecodeStrictAux_cons] at h
      rw [utf8DecodeReplaceAux_cons]
      cases hp : utf8ParseOne b rest with
      | none => rw [hp] at h; exact Option.noConfusion h
      | some pr =>
        obtain ⟨cp, r⟩ := pr
        rw [hp] at h
        simp only [Option.map_eq_some'] at h
        obtain ⟨a, ha, rfl⟩ := h
        have hr : r.length ≤ n := by
          have h1 := utf8ParseOne_suffix b rest cp r hp
          have h2 : rest.length + 1 ≤ n + 1 := by simpa using hlen
          omega
        simp only [ih r hr a ha]

theorem utf8DecodeReplace_eq_strict (bs cs : List Nat) (h : utf8DecodeStrict bs = some cs) :
    utf8DecodeReplace bs = cs :=
  utf8AuxAgree bs.length bs le_rfl cs h

theorem fileProcessor_process_text_c8_counterexample :
    fileProcessor_process_text [255] = none ∧ download_decode [255] = [65533] := by
  decide

/-- C8 amended: the app-level download decode (errors='replace') agrees
with strict decoding on every decodable byte sequence and is total by
construction, with no truncation; the standalone lightweight extractor
truncates the decoded text to 5000 characters but decodes strictly, so
on undecodable bytes it raises (returning no text) rather than
replacing. -/
theorem fileProcessor_process_text_c8_amended : ∀ bs : List Nat,
    (∀ cs, utf8DecodeStrict bs = some cs →
      download_decode bs = cs ∧ fileProcessor_process_text bs = some (cs.take 5000)) ∧
    (utf8DecodeStrict bs = none → fileProcessor_process_text bs = none) := by
  intro bs
  constructor
  · intro cs h
    exact ⟨utf8DecodeReplace_eq_strict bs cs h, by simp [fileProcessor_process_text, h]⟩
  · intro h
    simp [fileProcessor_process_text, h]

theorem fileProcessor_process_text_c8_amended_witness :
    download_decode [104, 105] = [104, 105] ∧
    fileProcessor_process_text [104, 105] = some [104, 105] := by
  have h := (fileProcessor_process_text_c8_amended [104, 105]).1 [104, 105] (by decide)
  exact ⟨h.1, by simpa using h.2⟩

/-! ## C9 -/

/-- C9: in every listing result, whatever the generate-summaries flag,
the model availability and the per-item outcomes, every non-folder item
carries exactly one summary string and every folder item carries none. -/
theorem list_files_in_folder_items_c9 (generate_summaries available : Bool)
    (outcome : RawItem → TryOutcome) (raw : List RawItem) :
    ∀ it ∈ list_files_in_folder_items generate_summaries available outcome raw,
      (it.type = "folder" → it.summary = none) ∧
      (it.type ≠ "folder" → ∃ s, it.summary = some s) := by
  intro it hit
  rw [list_files_in_folder_items, (List.mergeSort_perm _ itemSortLe).mem_iff] at hit
  obtain ⟨r, hr, rfl⟩ := List.mem_map.mp hit
  by_cases hm : (r.mimeType == FOLDER_MIME) = true
  · refine ⟨fun _ => ?_, fun hne => absurd (by simp [processItem, hm]) hne⟩
    simp [processItem, summarize_item, hm]
  · have hm2 : (r.mimeType == FOLDER_MIME) = false := by simpa using hm
    refine ⟨fun hfold => ?_, fun _ => ?_⟩
    · exact absurd hfold (by simp [processItem, hm2])
    · simp only [processItem, summarize_item, hm2]
      split
      · exact ⟨_, rfl⟩
      · split
        · exact ⟨_, rfl⟩
        · simp at *

theorem list_files_in_folder_items_c9_witness :
    ∃ s, (processItem true false (TryOutcome.ok "ok") c5RawItem).summary = some s := by
  have hmem : processItem true false (TryOutcome.ok "ok") c5RawItem ∈
      list_files_in_folder_items true false (fun _ => TryOutcome.ok "ok") [c5RawItem] := by
    rw [list_files_in_folder_items, (List.mergeSort_perm _ itemSortLe).mem_iff]
    simp
  exact (list_files_in_folder_items_c9 true false (fun _ => TryOutcome.ok "ok") [c5RawItem]
    _ hmem).2 (by decide)

/-! ## C10 -/

/-- C10: for absent (None) or empty content, `generate_file_summary`
returns "No content to summarize" immediately, before the
binary-extension check, the metadata fallback and the model-availability
check — whatever the file name, type, size, availability and model. -/
theorem generate_file_summary_c10 (file_content : Option String) (file_name : String)
    (file_type : Option String) (file_size : Option Nat) (available ready initOk : Bool)
    (model : String → ModelResult)
    (h : file_content = none ∨ file_content = some "") :
    generate_file_summary file_content file_name file_type file_size available ready initOk
      model = "No content to summarize" := by
  rcases h with h | h <;> subst h <;> rfl

theorem generate_file_summary_c10_witness :
    generate_file_summary none "photo.jpg" (some "image/jpeg") (some 1048576) true true true
      (fun _ => ModelResult.empty) = "No content to summarize" :=
  generate_file_summary_c10 none "photo.jpg" (some "image/jpeg") (some 1048576) true true true
    (fun _ => ModelResult.empty) (Or.inl rfl)
